import Mathlib

/-!
Shallow embedding of `src/majsoulrpa/_impl/browser.py` (module constants,
the humanized point sampler `_get_random_point_in_region`, and the
`BrowserBase`/`DesktopBrowser` input driver), together with theorems
settling the specification claims about viewport validation, point
sampling, region clicks, scrolling, key presses, construction, and the
window-singleton check.

Randomness (`random.normalvariate` followed by `round`) is abstracted as
an explicit list of integer draws: the Python loop consumes one rounded
draw per iteration, so a list models a finite prefix of the infinite draw
stream and `Option` records whether the loop exited within that prefix.
Calls into the external playwright engine are recorded as an explicit
trace of `EngineCall` values.
-/

namespace Majsoulrpa

/-- `STD_WIDTH: Final[int] = 1920` -/
def STD_WIDTH : Int := 1920

/-- `STD_HEIGHT: Final[int] = 1080` -/
def STD_HEIGHT : Int := 1080

/-- `MIN_WIDTH: Final[int] = STD_WIDTH * 2 // 3` (Python floor division). -/
def MIN_WIDTH : Int := STD_WIDTH * 2 / 3

/-- `MIN_HEIGHT: Final[int] = STD_HEIGHT * 2 // 3` -/
def MIN_HEIGHT : Int := STD_HEIGHT * 2 / 3

/-- `MAX_WIDTH: Final[int] = STD_WIDTH * 2` -/
def MAX_WIDTH : Int := STD_WIDTH * 2

/-- `MAX_HEIGHT: Final[int] = STD_HEIGHT * 2` -/
def MAX_HEIGHT : Int := STD_HEIGHT * 2

/-- `ASPECT_RATIO_16_9: Final[Fraction] = Fraction(16, 9)`; Python `Fraction`
is exact rational arithmetic, embedded as `ℚ`. -/
def ASPECT_RATIO_16_9 : ℚ := 16 / 9

/-- `DesktopBrowser._validate_viewport_size`.  The Python body is a
sequence of early `return False` guards; `Fraction(width, height)` is
only reached once `height ≥ MIN_HEIGHT > 0`, so embedding it as rational
division is exact there. -/
def validate_viewport_size (width height : Int) : Bool :=
  if width < MIN_WIDTH ∨ height < MIN_HEIGHT then false
  else if width > MAX_WIDTH ∨ height > MAX_HEIGHT then false
  else if (width : ℚ) / (height : ℚ) ≠ ASPECT_RATIO_16_9 then false
  else true

/-- C1: For every pair of integers `(width, height)`, the viewport
validator returns true iff both dimensions lie within the inclusive
bounds `[MIN, MAX]` (two-thirds to two-times the 1920x1080 reference)
and `width/height` equals `16/9` exactly as rationals; in particular
`validate(1920,1080) = true`, `validate(1280,720) = true` (the minimum
bound, inclusive), and `validate(1281,1080) = false`. -/
theorem C1_validate_viewport_size_iff :
    (∀ width height : Int,
      validate_viewport_size width height = true ↔
        (MIN_WIDTH ≤ width ∧ width ≤ MAX_WIDTH ∧
         MIN_HEIGHT ≤ height ∧ height ≤ MAX_HEIGHT ∧
         (width : ℚ) / (height : ℚ) = 16 / 9)) ∧
    validate_viewport_size 1920 1080 = true ∧
    validate_viewport_size 1280 720 = true ∧
    validate_viewport_size 1281 1080 = false := by
  have key : ∀ width height : Int,
      validate_viewport_size width height = true ↔
        (MIN_WIDTH ≤ width ∧ width ≤ MAX_WIDTH ∧
         MIN_HEIGHT ≤ height ∧ height ≤ MAX_HEIGHT ∧
         (width : ℚ) / (height : ℚ) = 16 / 9) := by
    intro width height
    unfold validate_viewport_size
    split_ifs with h1 h2 h3
    · simp only [Bool.false_eq_true, false_iff]
      rintro ⟨a, b, c, d, e⟩
      rcases h1 with h1 | h1 <;> omega
    · simp only [Bool.false_eq_true, false_iff]
      rintro ⟨a, b, c, d, e⟩
      rcases h2 with h2 | h2 <;> omega
    · simp only [Bool.false_eq_true, false_iff]
      rintro ⟨a, b, c, d, e⟩
      rw [ASPECT_RATIO_16_9] at h3
      exact h3 e
    · simp only [true_iff]
      push_neg at h1 h2
      rw [not_not, ASPECT_RATIO_16_9] at h3
      exact ⟨h1.1, h2.1, h1.2, h2.2, h3⟩
  refine ⟨key, ?_, ?_, ?_⟩
  · refine (key 1920 1080).2 ?_
    refine ⟨by norm_num [MIN_WIDTH, STD_WIDTH], by norm_num [MAX_WIDTH, STD_WIDTH],
      by norm_num [MIN_HEIGHT, STD_HEIGHT], by norm_num [MAX_HEIGHT, STD_HEIGHT], by norm_num⟩
  · refine (key 1280 720).2 ?_
    refine ⟨by norm_num [MIN_WIDTH, STD_WIDTH], by norm_num [MAX_WIDTH, STD_WIDTH],
      by norm_num [MIN_HEIGHT, STD_HEIGHT], by norm_num [MAX_HEIGHT, STD_HEIGHT], by norm_num⟩
  · cases hb : validate_viewport_size 1281 1080 with
    | false => rfl
    | true =>
      exfalso
      have hr := ((key 1281 1080).1 hb).2.2.2.2
      norm_num at hr

/-! ## Humanized point sampler: `_get_random_point_in_region` -/

/-- `mu = distance_origin + length_region/2.0` inside `_impl_get_point`
(float arithmetic, embedded as exact `ℚ`). -/
def point_mu (distance_origin length_region : Int) : ℚ :=
  (distance_origin : ℚ) + (length_region : ℚ) / 2

/-- `sigma = (mu - distance_origin) / edge_sigma` inside
`_impl_get_point`.  In Python this raises `ZeroDivisionError` when
`edge_sigma == 0.0`; callers must guard that case (see
`get_random_point_in_region`). -/
def point_sigma (distance_origin length_region : Int) (edge_sigma : ℚ) : ℚ :=
  (point_mu distance_origin length_region - (distance_origin : ℚ)) / edge_sigma

/-- The acceptance test of the rejection loop in `_impl_get_point`:
`if distance_origin < p and p < (distance_origin + length_region): break`.
`p` is `round(random.normalvariate(mu, sigma))`, an integer. -/
def accept_point (distance_origin length_region p : Int) : Bool :=
  decide (distance_origin < p) && decide (p < distance_origin + length_region)

/-- The `while True` rejection loop of `_impl_get_point`, with the
rounded normal draws made explicit: the loop returns the first draw the
acceptance test passes.  `none` means the loop is still running after
the given prefix of the draw stream. -/
def impl_get_point (distance_origin length_region : Int) (draws : List Int) :
    Option Int :=
  draws.find? (accept_point distance_origin length_region)

/-- Outcome of a direct call to `_get_random_point_in_region`: the
function performs no parameter validation (its docstring says so), but
with `edge_sigma = 0` the `sigma` computation itself raises
`ZeroDivisionError` before the loops run. -/
inductive SamplerOutcome where
  | zeroDivisionError
  | ok (result : Option (Int × Int))
  deriving DecidableEq, Repr

/-- `_get_random_point_in_region(left, top, width, height, edge_sigma)`:
computes `x = _impl_get_point(left, width)` then
`y = _impl_get_point(top, height)` and returns `(x, y)`.  `xdraws` and
`ydraws` are the rounded normal draws consumed by the two loops;
`SamplerOutcome.ok none` marks a loop that has not exited within its
draw prefix. -/
def get_random_point_in_region (left top width height : Int) (edge_sigma : ℚ)
    (xdraws ydraws : List Int) : SamplerOutcome :=
  if edge_sigma = 0 then SamplerOutcome.zeroDivisionError
  else
    SamplerOutcome.ok
      (match impl_get_point left width xdraws, impl_get_point top height ydraws with
       | some x, some y => some (x, y)
       | _, _ => none)

/-- C2: for every region with positive width and height and every
`edge_bias > 0`, whenever the point sampler returns a point `(x, y)`,
that point lies strictly inside the region on both axes:
`left < x < left + width` and `top < y < top + height`; a point exactly
on a boundary is never returned. -/
theorem C2_sample_point_strictly_inside
    (left top width height : Int) (edge_sigma : ℚ) (xdraws ydraws : List Int)
    (x y : Int)
    (hw : 0 < width) (hh : 0 < height) (hs : 0 < edge_sigma)
    (hres : get_random_point_in_region left top width height edge_sigma xdraws ydraws
      = SamplerOutcome.ok (some (x, y))) :
    left < x ∧ x < left + width ∧ top < y ∧ y < top + height := by
  unfold get_random_point_in_region at hres
  rw [if_neg (by exact ne_of_gt hs)] at hres
  rcases hx : impl_get_point left width xdraws with _ | x' <;>
    rcases hy : impl_get_point top height ydraws with _ | y' <;>
      rw [hx, hy] at hres <;> simp only [SamplerOutcome.ok.injEq] at hres
  · cases hres
  · cases hres
  · cases hres
  · have h12 : x' = x ∧ y' = y := by simpa [Prod.ext_iff] using hres
    have hax : accept_point left width x = true := h12.1 ▸ List.find?_some hx
    have hay : accept_point top height y = true := h12.2 ▸ List.find?_some hy
    unfold accept_point at hax hay
    simp only [Bool.and_eq_true, decide_eq_true_eq] at hax hay
    exact ⟨hax.1, hax.2, hay.1, hay.2⟩

/-- Witness for C2 at a concrete input: region `(0, 0, 10, 10)`,
`edge_sigma = 1`, draws `[5]` and `[7]` give the point `(5, 7)`,
strictly inside. -/
theorem C2_sample_point_strictly_inside_witness :
    get_random_point_in_region 0 0 10 10 1 [5] [7] = SamplerOutcome.ok (some (5, 7)) ∧
    ((0 : Int) < 5 ∧ (5 : Int) < 0 + 10 ∧ (0 : Int) < 7 ∧ (7 : Int) < 0 + 10) := by
  have h : get_random_point_in_region 0 0 10 10 1 [5] [7]
      = SamplerOutcome.ok (some (5, 7)) := by decide
  exact ⟨h, C2_sample_point_strictly_inside 0 0 10 10 1 [5] [7] 5 7
    (by decide) (by decide) (by norm_num) h⟩

/-- C3 counterexample: for an axis of extent 1 (here origin 0,
`length_region = 1`, as arises from any region of width 1, which the
claim's hypotheses allow), no integer draw is ever accepted — the open
interval `(0, 1)` contains no integer — so the rejection loop never
exits, whatever the draw stream: the acceptance probability is 0, not
positive, and the loop does not terminate with probability 1. -/
theorem C3_counterexample_extent_one_never_terminates :
    (∀ p : Int, accept_point 0 1 p = false) ∧
    (∀ draws : List Int, impl_get_point 0 1 draws = none) := by
  have hacc : ∀ p : Int, accept_point 0 1 p = false := by
    intro p
    unfold accept_point
    simp only [Bool.and_eq_false_iff, decide_eq_false_iff_not, not_lt]
    omega
  refine ⟨hacc, ?_⟩
  intro draws
  rw [impl_get_point, List.find?_eq_none]
  intro p _
  rw [hacc p]
  exact Bool.false_ne_true

/-- C3 amended: for every axis of extent at least 2 (so for every region
with `width ≥ 2` and `height ≥ 2`), the acceptance set of the rejection
loop is nonempty — the integer `origin + 1` lies strictly inside the
open interval — and the loop terminates on any draw stream that
eventually produces an accepted value (no iteration cap is imposed, and
none is needed on such streams); for extent 1 the acceptance set is
empty and the loop never exits. -/
theorem C3_amended_rejection_loop_terminates
    (distance_origin length_region : Int) (h2 : 2 ≤ length_region) :
    accept_point distance_origin length_region (distance_origin + 1) = true ∧
    ∀ draws : List Int,
      (∃ p ∈ draws, accept_point distance_origin length_region p = true) →
      (impl_get_point distance_origin length_region draws).isSome = true := by
  constructor
  · unfold accept_point
    simp only [Bool.and_eq_true, decide_eq_true_eq]
    omega
  · intro draws hex
    rw [impl_get_point, List.find?_isSome]
    exact hex

/-- Witness for C3 amended at a concrete input: axis origin 0, extent 2;
the draw stream `[0, 2, 1]` (two rejections, then the interior point 1)
makes the loop exit. -/
theorem C3_amended_rejection_loop_terminates_witness :
    (2 ≤ (2 : Int)) ∧
    accept_point 0 2 (0 + 1) = true ∧
    (impl_get_point 0 2 [0, 2, 1]).isSome = true := by
  have h := C3_amended_rejection_loop_terminates 0 2 (by decide)
  exact ⟨by decide, h.1, h.2 [0, 2, 1] ⟨1, by decide, by decide⟩⟩

/-! ## Calls dispatched to the external playwright engine -/

/-- One call issued by `DesktopBrowser` to the external browser-control
engine (playwright) or to `time.sleep`.  The driver methods are embedded
as functions returning the trace of such calls. -/
inductive EngineCall where
  | click (x y : Int)
  | wheel (delta_x delta_y : Int)
  | sleep (tenths_of_second : Int)
  | press (key : String)
  | typeText (text : String)
  | reload
  | startPlaywright
  | launchChromium
  | newContext (width height : Int)
  | newPage
  | goto (url : String)
  deriving DecidableEq, Repr

/-- Recognizes wheel events in an engine-call trace. -/
def is_wheel : EngineCall → Bool
  | EngineCall.wheel _ _ => true
  | _ => false

/-- The wheel delta chosen by `DesktopBrowser.scroll`:
`delta = 58 * 2` for positive `clicks`, `delta = -58 * 2` otherwise. -/
def scroll_delta (clicks : Int) : Int :=
  if 0 < clicks then 58 * 2 else -58 * 2

/-- `DesktopBrowser.scroll(clicks)`: returns immediately when
`clicks == 0`; otherwise sets `delta` by the sign of `clicks`, takes
`clicks = abs(clicks)`, issues one wheel event, then
`for _ in range(clicks - 1)` sleeps 0.1 s and issues another wheel
event. -/
def scroll (clicks : Int) : List EngineCall :=
  if clicks = 0 then []
  else
    EngineCall.wheel 0 (scroll_delta clicks) ::
      ((List.range (clicks.natAbs - 1)).map
        (fun _ => [EngineCall.sleep 1, EngineCall.wheel 0 (scroll_delta clicks)])).flatten

theorem countP_flatten_replicate {α : Type} (p : α → Bool) (l : List α) (k : Nat) :
    ((List.replicate k l).flatten).countP p = k * l.countP p := by
  induction k with
  | zero => simp
  | succ n ih =>
    rw [List.replicate_succ, List.flatten_cons, List.countP_append, ih]
    ring

/-- C5: `scroll(0)` issues zero wheel events; `scroll(n)` with `n ≠ 0`
issues exactly `abs(n)` wheel events, each of the same fixed pixel delta
whose sign matches the sign of `n`, with a short fixed pause between
consecutive events but no pause before the first event (the trace is a
wheel event followed by `abs(n) - 1` repetitions of a pause then a wheel
event). -/
theorem C5_scroll_wheel_events (clicks : Int) :
    (clicks = 0 → scroll clicks = []) ∧
    (scroll clicks).countP is_wheel = clicks.natAbs ∧
    (clicks ≠ 0 →
      scroll clicks =
        EngineCall.wheel 0 (scroll_delta clicks) ::
          (List.replicate (clicks.natAbs - 1)
            [EngineCall.sleep 1, EngineCall.wheel 0 (scroll_delta clicks)]).flatten ∧
      (0 < clicks → scroll_delta clicks = 116) ∧
      (clicks < 0 → scroll_delta clicks = -116)) := by
  have hstruct : clicks ≠ 0 →
      scroll clicks =
        EngineCall.wheel 0 (scroll_delta clicks) ::
          (List.replicate (clicks.natAbs - 1)
            [EngineCall.sleep 1, EngineCall.wheel 0 (scroll_delta clicks)]).flatten := by
    intro h
    unfold scroll
    rw [if_neg h, List.map_const', List.length_range]
  refine ⟨fun h => by simp [scroll, h], ?_, fun h => ⟨hstruct h, ?_, ?_⟩⟩
  · by_cases h : clicks = 0
    · simp [scroll, h]
    · rw [hstruct h, List.countP_cons_of_pos _ _ (by rfl),
        countP_flatten_replicate]
      have : clicks.natAbs ≠ 0 := Int.natAbs_ne_zero.2 h
      have hcount : [EngineCall.sleep 1,
          EngineCall.wheel 0 (scroll_delta clicks)].countP is_wheel = 1 := rfl
      rw [hcount]
      omega
  · intro hpos
    unfold scroll_delta
    rw [if_pos hpos]
    norm_num
  · intro hneg
    unfold scroll_delta
    rw [if_neg (by omega)]
    norm_num

/-- Witness for C5 at concrete inputs: `scroll 3` issues exactly 3 wheel
events of delta `116`, `scroll (-2)` exactly 2 of delta `-116`, and
`scroll 0` none. -/
theorem C5_scroll_wheel_events_witness :
    scroll 0 = [] ∧
    (scroll 3).countP is_wheel = 3 ∧
    scroll_delta 3 = 116 ∧
    (scroll (-2)).countP is_wheel = 2 ∧
    scroll_delta (-2) = -116 := by
  refine ⟨(C5_scroll_wheel_events 0).1 rfl, (C5_scroll_wheel_events 3).2.1,
    ((C5_scroll_wheel_events 3).2.2 (by decide)).2.1 (by decide),
    (C5_scroll_wheel_events (-2)).2.1,
    ((C5_scroll_wheel_events (-2)).2.2 (by decide)).2.2 (by decide)⟩

/-! ## `DesktopBrowser.press` -/

/-- The argument of `DesktopBrowser.press`: Python's
`keys: str | Iterable[str]`, discriminated at run time by
`isinstance(keys, str)`. -/
inductive PressKeys where
  | single (s : String)
  | multiple (ks : List String)
  deriving DecidableEq, Repr

/-- `DesktopBrowser.press(keys)`: when `keys` is a string, one
`keyboard.press(keys)` call for the whole string; otherwise one
`keyboard.press(k)` call per element `k`, in iteration order. -/
def press_calls : PressKeys → List EngineCall
  | PressKeys.single s => [EngineCall.press s]
  | PressKeys.multiple ks => ks.map EngineCall.press

/-- C9: for every string argument `s`, `press(s)` issues exactly one key
press of `s` as a whole — even though a string is an iterable of
characters, it is not split into per-character presses — and only for a
non-string iterable does `press` issue one press per element, in the
iterable's order. -/
theorem C9_press_string_whole :
    (∀ s : String, press_calls (PressKeys.single s) = [EngineCall.press s] ∧
      (press_calls (PressKeys.single s)).length = 1) ∧
    (∀ ks : List String,
      press_calls (PressKeys.multiple ks) = ks.map EngineCall.press ∧
      (press_calls (PressKeys.multiple ks)).length = ks.length) ∧
    press_calls (PressKeys.single "Enter") ≠
      ("Enter".toList.map (fun c => EngineCall.press (String.mk [c]))) := by
  refine ⟨fun s => ⟨rfl, rfl⟩, fun ks => ⟨rfl, by simp [press_calls]⟩, by decide⟩

/-! ## `DesktopBrowser` state, construction and `click_region` -/

/-- The driver state set up by `DesktopBrowser.__init__` after
validation: `self._viewport_size` and `self._zoom_ratio`
(`width / STD_WIDTH`, Python float division embedded as `ℚ`). -/
structure BrowserState where
  viewport_width : Int
  viewport_height : Int
  zoom_ratio : ℚ
  deriving DecidableEq, Repr

/-- `URL_MAJSOUL: Final[str]` -/
def URL_MAJSOUL : String := "https://game.mahjongsoul.com/"

/-- `DesktopBrowser.__init__(width, height)`: validates the viewport
size and raises `RuntimeError` before anything else happens; only on
success does it store the viewport and zoom ratio and then acquire the
playwright resources (start, launch, new context, new page, goto).
Returns the constructed state (or the error) with the trace of engine
calls made. -/
def desktop_browser_init (width height : Int) :
    Except String BrowserState × List EngineCall :=
  if validate_viewport_size width height then
    (Except.ok ⟨width, height, (width : ℚ) / (STD_WIDTH : ℚ)⟩,
     [EngineCall.startPlaywright, EngineCall.launchChromium,
      EngineCall.newContext width height, EngineCall.newPage,
      EngineCall.goto URL_MAJSOUL])
  else
    (Except.error "Supported viewport sizes are from 1280 x 720 to 3840 x 2160 and 16:9 aspect ratio.",
     [])

/-- `DesktopBrowser._validate_region(left, top, width, height)`:
the chain of early `return False` guards against the stored viewport. -/
def validate_region (st : BrowserState) (left top width height : Int) : Bool :=
  if left < 0 ∨ top < 0 then false
  else if width ≤ 0 ∨ height ≤ 0 then false
  else if left ≥ st.viewport_width then false
  else if top ≥ st.viewport_height then false
  else if width > st.viewport_width - left then false
  else if height > st.viewport_height - top then false
  else true

/-- Errors raised by `DesktopBrowser.click_region` (both are
`RuntimeError` in Python, distinguished by message). -/
inductive ClickError where
  | invalidRegion (left top width height : Int)
  | invalidParameter
  deriving DecidableEq, Repr

/-- `DesktopBrowser.click_region(left, top, width, height, edge_sigma)`:
raises on an invalid region, then on `edge_sigma <= 0.0`, and only then
samples a point via `_get_random_point_in_region` and issues exactly one
`mouse.click(x, y)`.  `Except.ok none` marks a sampler rejection loop
that has not exited within its draw prefix. -/
def click_region (st : BrowserState) (left top width height : Int)
    (edge_sigma : ℚ) (xdraws ydraws : List Int) :
    Except ClickError (Option (List EngineCall)) :=
  if ¬ validate_region st left top width height then
    Except.error (ClickError.invalidRegion left top width height)
  else if edge_sigma ≤ 0 then
    Except.error ClickError.invalidParameter
  else
    Except.ok
      (match get_random_point_in_region left top width height edge_sigma xdraws ydraws with
       | SamplerOutcome.ok (some (x, y)) => some [EngineCall.click x y]
       | _ => none)

/-- The region-validation guards, restated as in the claim: degenerate
size, negative origin, or crossing the viewport boundary. -/
theorem validate_region_false_iff (st : BrowserState) (left top width height : Int) :
    validate_region st left top width height = false ↔
      (width ≤ 0 ∨ height ≤ 0 ∨ left < 0 ∨ top < 0 ∨
       left + width > st.viewport_width ∨ top + height > st.viewport_height) := by
  unfold validate_region
  split_ifs with h1 h2 h3 h4 h5 h6 <;>
    simp only [Bool.false_eq_true, Bool.true_eq_false, true_iff, false_iff] <;>
    push_neg at * <;> omega

/-- C4: `click_region(left, top, width, height, edge_sigma)` fails with
the invalid-region error — and no click is issued — whenever the region
is degenerate (`width ≤ 0` or `height ≤ 0`), has negative origin
(`left < 0` or `top < 0`), or lies partly or fully outside the viewport
(`left + width > viewport.width` or `top + height > viewport.height`);
otherwise, with `edge_sigma > 0`, whenever it returns a trace it has
sampled one point via the sampler and issues exactly one external click
at that point. -/
theorem C4_click_region_validates (st : BrowserState)
    (left top width height : Int) (edge_sigma : ℚ) (xdraws ydraws : List Int) :
    ((width ≤ 0 ∨ height ≤ 0 ∨ left < 0 ∨ top < 0 ∨
      left + width > st.viewport_width ∨ top + height > st.viewport_height) →
      click_region st left top width height edge_sigma xdraws ydraws =
        Except.error (ClickError.invalidRegion left top width height)) ∧
    (validate_region st left top width height = true → 0 < edge_sigma →
      ∀ calls : List EngineCall,
        click_region st left top width height edge_sigma xdraws ydraws =
          Except.ok (some calls) →
        ∃ x y : Int,
          calls = [EngineCall.click x y] ∧
          get_random_point_in_region left top width height edge_sigma xdraws ydraws =
            SamplerOutcome.ok (some (x, y))) := by
  constructor
  · intro hbad
    have hfalse : validate_region st left top width height = false :=
      (validate_region_false_iff st left top width height).2 hbad
    unfold click_region
    rw [if_pos (by rw [hfalse]; exact Bool.false_ne_true)]
  · intro hvalid hsigma calls hcalls
    unfold click_region at hcalls
    rw [if_neg (by rw [hvalid]; exact fun hf => hf rfl),
      if_neg (not_le.2 hsigma)] at hcalls
    cases hres : get_random_point_in_region left top width height edge_sigma xdraws ydraws with
    | zeroDivisionError =>
      rw [hres] at hcalls
      have h2 : (none : Option (List EngineCall)) = some calls := Except.ok.inj hcalls
      exact Option.noConfusion h2
    | ok r =>
      cases r with
      | none =>
        rw [hres] at hcalls
        have h2 : (none : Option (List EngineCall)) = some calls := Except.ok.inj hcalls
        exact Option.noConfusion h2
      | some xy =>
        obtain ⟨x, y⟩ := xy
        rw [hres] at hcalls
        have h2 : some [EngineCall.click x y] = some calls := Except.ok.inj hcalls
        exact ⟨x, y, (Option.some_inj.1 h2).symm, rfl⟩

/-- Witness for C4 at concrete inputs, viewport 1920x1080: the region
`(1900, 0, 100, 50)` crosses the right viewport edge and fails with the
invalid-region error; the valid region `(10, 10, 100, 100)` with
`edge_sigma = 2` and draws `[60]`, `[70]` issues exactly one click at
`(60, 70)`. -/
theorem C4_click_region_validates_witness :
    click_region ⟨1920, 1080, 1⟩ 1900 0 100 50 2 [] [] =
      Except.error (ClickError.invalidRegion 1900 0 100 50) ∧
    (∃ x y : Int,
      [EngineCall.click 60 70] = [EngineCall.click x y] ∧
      get_random_point_in_region 10 10 100 100 2 [60] [70] =
        SamplerOutcome.ok (some (x, y))) := by
  constructor
  · exact (C4_click_region_validates ⟨1920, 1080, 1⟩ 1900 0 100 50 2 [] []).1
      (by decide)
  · exact (C4_click_region_validates ⟨1920, 1080, 1⟩ 10 10 100 100 2 [60] [70]).2
      (by decide) (by norm_num) [EngineCall.click 60 70] rfl

/-- C6 counterexample: a direct call to the point sampler with
`edge_bias = -1 ≤ 0` does not fail with any error at all — the function
performs no parameter validation (its docstring: "This function does not
validate parameters.") — and here returns the point `(5, 7)`. -/
theorem C6_counterexample_sampler_negative_sigma_no_error :
    get_random_point_in_region 0 0 10 10 (-1) [5] [7] =
      SamplerOutcome.ok (some (5, 7)) := by
  decide

/-- C6 amended: for every `edge_bias ≤ 0`, `click_region` (on a region
that passes region validation, which is checked first) fails with the
invalid-parameter error, raised before any external click is dispatched;
the direct sampler, by contrast, validates nothing: with `edge_bias < 0`
it proceeds into its rejection loops and returns whatever they produce
(no error), and with `edge_bias = 0` it fails with `ZeroDivisionError`
(from the `sigma` computation), not with an invalid-parameter error. -/
theorem C6_amended_edge_sigma_validation
    (st : BrowserState) (left top width height : Int) (edge_sigma : ℚ)
    (xdraws ydraws : List Int) (hsig : edge_sigma ≤ 0) :
    (validate_region st left top width height = true →
      click_region st left top width height edge_sigma xdraws ydraws =
        Except.error ClickError.invalidParameter) ∧
    (edge_sigma < 0 →
      get_random_point_in_region left top width height edge_sigma xdraws ydraws =
        SamplerOutcome.ok
          (match impl_get_point left width xdraws, impl_get_point top height ydraws with
           | some x, some y => some (x, y)
           | _, _ => none)) ∧
    (edge_sigma = 0 →
      get_random_point_in_region left top width height edge_sigma xdraws ydraws =
        SamplerOutcome.zeroDivisionError) := by
  refine ⟨?_, ?_, ?_⟩
  · intro hvalid
    unfold click_region
    rw [if_neg (by rw [hvalid]; exact fun hf => hf rfl), if_pos hsig]
  · intro hlt
    unfold get_random_point_in_region
    rw [if_neg (ne_of_lt hlt)]
  · intro hz
    unfold get_random_point_in_region
    rw [if_pos hz]

/-- Witness for C6 amended at concrete inputs: viewport 1920x1080,
region `(10, 10, 100, 100)`, `edge_sigma = -1`: `click_region` fails
with the invalid-parameter error, while the direct sampler call returns
a point; with `edge_sigma = 0` the sampler fails with
`ZeroDivisionError`. -/
theorem C6_amended_edge_sigma_validation_witness :
    click_region ⟨1920, 1080, 1⟩ 10 10 100 100 (-1) [60] [70] =
      Except.error ClickError.invalidParameter ∧
    get_random_point_in_region 10 10 100 100 (-1) [60] [70] =
      SamplerOutcome.ok
        (match impl_get_point 10 100 [60], impl_get_point 10 100 [70] with
         | some x, some y => some (x, y)
         | _, _ => none) ∧
    get_random_point_in_region 10 10 100 100 0 [60] [70] =
      SamplerOutcome.zeroDivisionError := by
  refine ⟨?_, ?_, ?_⟩
  · exact (C6_amended_edge_sigma_validation ⟨1920, 1080, 1⟩ 10 10 100 100 (-1) [60] [70]
      (by norm_num)).1 (by decide)
  · exact (C6_amended_edge_sigma_validation ⟨1920, 1080, 1⟩ 10 10 100 100 (-1) [60] [70]
      (by norm_num)).2.1 (by norm_num)
  · exact (C6_amended_edge_sigma_validation ⟨1920, 1080, 1⟩ 10 10 100 100 0 [60] [70]
      le_rfl).2.2 rfl

/-- C8: for every valid viewport size, the constructed driver's
`zoom_ratio` equals `width / 1920` (the reference width).  In this
embedding `zoom_ratio` is a plain field of the state computed once by
`desktop_browser_init` and never rewritten afterwards, and the Python
property `DesktopBrowser.zoom_ratio` just returns `self._zoom_ratio`,
so reading it has no side effects. -/
theorem C8_zoom_ratio_from_width (width height : Int)
    (h : validate_viewport_size width height = true) :
    ∃ st : BrowserState,
      (desktop_browser_init width height).1 = Except.ok st ∧
      st.zoom_ratio = (width : ℚ) / 1920 := by
  refine ⟨⟨width, height, (width : ℚ) / (STD_WIDTH : ℚ)⟩, ?_, ?_⟩
  · unfold desktop_browser_init
    rw [if_pos h]
  · show (width : ℚ) / (STD_WIDTH : ℚ) = (width : ℚ) / 1920
    norm_num [STD_WIDTH]

theorem validate_viewport_size_1920_1080 :
    validate_viewport_size 1920 1080 = true := by
  unfold validate_viewport_size
  norm_num [MIN_WIDTH, MIN_HEIGHT, MAX_WIDTH, MAX_HEIGHT, STD_WIDTH, STD_HEIGHT, ASPECT_RATIO_16_9]

theorem validate_viewport_size_1281_1080 :
    validate_viewport_size 1281 1080 = false := by
  unfold validate_viewport_size
  norm_num [MIN_WIDTH, MIN_HEIGHT, MAX_WIDTH, MAX_HEIGHT, STD_WIDTH, STD_HEIGHT, ASPECT_RATIO_16_9]

/-- Witness for C8 at a concrete input: viewport 1920x1080 gives
`zoom_ratio = 1`. -/
theorem C8_zoom_ratio_from_width_witness :
    ∃ st : BrowserState,
      (desktop_browser_init 1920 1080).1 = Except.ok st ∧
      st.zoom_ratio = (1920 : ℚ) / 1920 := by
  exact C8_zoom_ratio_from_width 1920 1080 validate_viewport_size_1920_1080

/-- C10: if the driver is constructed with a viewport size that fails
validation, the constructor raises before any browser-control engine
resource is acquired: the engine-call trace is empty — no playwright
start, no browser launch, no context, no page, no navigation. -/
theorem C10_init_invalid_viewport_no_engine_calls (width height : Int)
    (h : validate_viewport_size width height = false) :
    (∃ msg : String, (desktop_browser_init width height).1 = Except.error msg) ∧
    (desktop_browser_init width height).2 = [] := by
  unfold desktop_browser_init
  rw [h]
  exact ⟨⟨_, rfl⟩, rfl⟩

/-- Witness for C10 at a concrete input: `(1281, 1080)` fails validation
and construction makes no engine call. -/
theorem C10_init_invalid_viewport_no_engine_calls_witness :
    (∃ msg : String, (desktop_browser_init 1281 1080).1 = Except.error msg) ∧
    (desktop_browser_init 1281 1080).2 = [] := by
  exact C10_init_invalid_viewport_no_engine_calls 1281 1080 validate_viewport_size_1281_1080

/-! ## `BrowserBase.is_singleton` -/

/-- `TITLE_MAJSOUL: Final[str]` -/
def TITLE_MAJSOUL : String := "雀魂 -じゃんたま-| 麻雀を無料で気軽に"

/-- The filter predicate of the list comprehension in `is_singleton`:
`w.title.startwith(TITLE_MAJSOUL)`.  Python `str` has no attribute
`startwith` (the method is named `startswith`), so evaluating this on
any window raises `AttributeError` instead of returning a boolean. -/
def title_startwith (title : String) : Except String Bool :=
  Except.error "AttributeError: str object has no attribute startwith"

/-- The list comprehension
`[w for w in pygetwindow.getAllWindows() if w.title.startwith(...)]`:
the predicate is evaluated once per window, in order, and an exception
during any evaluation aborts the whole comprehension. -/
def filter_windows (pred : String → Except String Bool) :
    List String → Except String (List String)
  | [] => Except.ok []
  | t :: ts => do
    let b ← pred t
    let rest ← filter_windows pred ts
    pure (if b then t :: rest else rest)

/-- Outcome of `BrowserBase.is_singleton`. -/
inductive SingletonOutcome where
  | ok
  | runtimeErrorNoWindow
  | runtimeErrorMultipleWindows
  | attributeError (msg : String)
  | notImplementedError (platform_name : String)
  deriving DecidableEq, Repr

/-- `BrowserBase.is_singleton()`: on Windows with `self._window` still
`None`, filters all top-level windows by title and raises
`RuntimeError` for zero or multiple matches; on any other platform
raises `NotImplementedError(platform.system())`.  The filter predicate
itself is the misspelled `startwith`, so any nonempty window list makes
the comprehension raise `AttributeError`. -/
def is_singleton (platform_system : String) (window_is_none : Bool)
    (all_window_titles : List String) : SingletonOutcome :=
  if platform_system = "Windows" then
    if window_is_none then
      match filter_windows title_startwith all_window_titles with
      | Except.error msg => SingletonOutcome.attributeError msg
      | Except.ok ws =>
        if ws.length = 0 then SingletonOutcome.runtimeErrorNoWindow
        else if ws.length > 1 then SingletonOutcome.runtimeErrorMultipleWindows
        else SingletonOutcome.ok
    else SingletonOutcome.ok
  else SingletonOutcome.notImplementedError platform_system

/-- C7, evaluated on the code as written: with exactly one matching
top-level window present (the case in which the claim says
`is_singleton` succeeds without error), the call instead fails with
`AttributeError`, because the comprehension's predicate is the
misspelled `w.title.startwith(...)`; the same happens for any nonempty
window list, matching or not.  The zero-window case and the non-Windows
case do behave as the claim says. -/
theorem C7_is_singleton_code_eval :
    is_singleton "Windows" true [TITLE_MAJSOUL] =
      SingletonOutcome.attributeError
        "AttributeError: str object has no attribute startwith" ∧
    is_singleton "Windows" true ["unrelated window", TITLE_MAJSOUL] =
      SingletonOutcome.attributeError
        "AttributeError: str object has no attribute startwith" ∧
    is_singleton "Windows" true [] = SingletonOutcome.runtimeErrorNoWindow ∧
    is_singleton "Linux" true [TITLE_MAJSOUL] =
      SingletonOutcome.notImplementedError "Linux" := by
  exact ⟨rfl, rfl, rfl, by decide⟩

end Majsoulrpa
